import Mathlib

/-!
Verification of `sdk/ai/azure-ai-projects/samples/connections/async_samples/
sample_connections_async.py`: a shallow embedding of the sample's flow
(environment reads, scoped project session, connection resolution, the
client-factory dispatch on `connection_type` / `authentication_type`, and the
chat-completion call), together with theorems about that embedding.

Remote calls (`connections.list`, `connections.get_default`, `connections.get`,
the completion request) are modelled by an oracle `Service` supplying their
results; effects are recorded as an explicit `Event` trace.
-/

set_option autoImplicit false

namespace SampleConnections

/-- `azure.ai.projects.models.ConnectionType` (the members the sample can meet). -/
inductive ConnectionType
  | AZURE_OPEN_AI
  | AZURE_AI_SERVICES
  | SERVERLESS
  | AZURE_BLOB_STORAGE
  | AZURE_AI_SEARCH
  deriving DecidableEq, Repr

/-- `azure.ai.projects.models.AuthenticationType`. -/
inductive AuthenticationType
  | API_KEY
  | ENTRA_ID
  | SAS
  | NONE
  deriving DecidableEq, Repr

/-- A resolved connection record, as the sample reads it:
`connection.connection_type`, `connection.authentication_type`,
`connection.endpoint_url`, `connection.key` (optional secret),
`connection.token_credential` (opaque credential handle, optional). -/
structure Connection where
  name : String
  connection_type : ConnectionType
  authentication_type : AuthenticationType
  endpoint_url : String
  key : Option String
  token_credential : Option Nat
  deriving DecidableEq, Repr

/-- The credential shape handed to `AsyncAzureOpenAI`: either `api_key=...`
(line 87 of the sample) or `azure_ad_token_provider=get_bearer_token_provider(...)`
(lines 97-100). -/
inductive OpenAICredential
  | staticKey (api_key : Option String)
  | bearerTokenProvider (credential : Option Nat) (scope : String)
  deriving DecidableEq, Repr

/-- The credential handed to `azure.ai.inference`'s `ChatCompletionsClient`:
`AzureKeyCredential(connection.key or "")` (line 129) or the raw
`connection.token_credential` (line 137). -/
inductive InferenceCredential
  | azureKeyCredential (key : String)
  | asyncTokenCredential (credential : Option Nat)
  deriving DecidableEq, Repr

/-- The two chat-client variants the sample can construct. -/
inductive ChatClient
  | asyncAzureOpenAI (credential : OpenAICredential) (azure_endpoint : String)
      (api_version : String)
  | chatCompletionsClient (endpoint : String) (credential : InferenceCredential)
  deriving DecidableEq, Repr

/-- Errors the flow can surface: `KeyError` from `os.environ[...]`,
resolver failures, the `ValueError(f"Authentication type ... not supported.")`
of lines 105/140, remote failures, and `IndexError` from `response.choices[0]`. -/
inductive FlowError
  | missingEnv (name : String)
  | resourceNotFound (msg : String)
  | unsupportedAuth (t : AuthenticationType)
  | remoteError (msg : String)
  | indexError
  deriving DecidableEq, Repr

/-- Observable effects of one run, in order. -/
inductive Event
  | envRead (name : String)
  | sessionOpen
  | sessionClose
  | networkCall (op : String)
  | printed (line : String)
  | printedConn (c : Connection)
  | getBearerTokenProvider (credential : Option Nat) (scope : String)
  | clientConstructed (client : ChatClient)
  | completionRequest (client : ChatClient) (model : String) (content : String)
  | clientClose (client : ChatClient)
  deriving DecidableEq, Repr

/-- A flow step: the events it emits plus its outcome.  A failing step keeps
the events emitted before the failure. -/
structure Step (α : Type) where
  events : List Event
  result : Except FlowError α
  deriving Repr

def Step.bind {α β : Type} (s : Step α) (f : α → Step β) : Step β :=
  match s.result with
  | .error e => ⟨s.events, .error e⟩
  | .ok a => ⟨s.events ++ (f a).events, (f a).result⟩

instance : Monad Step where
  pure a := ⟨[], .ok a⟩
  bind := Step.bind

/-- `print(...)` of a string. -/
def tellP (line : String) : Step Unit := ⟨[.printed line], .ok ()⟩

/-- `print(connection)`. -/
def tellConn (c : Connection) : Step Unit := ⟨[.printedConn c], .ok ()⟩

/-- One remote round trip, with the oracle-provided outcome. -/
def networkStep {α : Type} (op : String) (r : Except FlowError α) : Step α :=
  ⟨[.networkCall op], r⟩

/-- `os.environ[name]`: reading is attempted, and a missing variable raises
`KeyError` (modelled as `FlowError.missingEnv`). -/
def readEnv (name : String) (value : Option String) : Step String :=
  ⟨[.envRead name],
    match value with
    | some v => .ok v
    | none => .error (.missingEnv name)⟩

/-- `async with project_client:`: the session opens, the body runs, and the
session is closed on every exit path of the body. -/
def withSession {α : Type} (body : Step α) : Step α :=
  ⟨.sessionOpen :: (body.events ++ [.sessionClose]), body.result⟩

/-- The `for connection in connections: print(connection)` loops. -/
def printConnections (cs : List Connection) : Step Unit :=
  ⟨cs.map Event.printedConn, .ok ()⟩

/-- The three environment variables the sample reads (lines 37-39). -/
structure Env where
  PROJECT_CONNECTION_STRING : Option String
  CONNECTION_NAME : Option String
  MODEL_DEPLOYMENT_NAME : Option String

/-- `response.choices[i].message.content`. -/
structure ChatMessage where
  content : String
  deriving DecidableEq, Repr

structure ChatChoice where
  message : ChatMessage
  deriving DecidableEq, Repr

structure ChatResponse where
  choices : List ChatChoice
  deriving DecidableEq, Repr

/-- Oracle for the remote collaborators: the connection service's three
operations and the chat-completion endpoints. -/
structure Service where
  list : Option ConnectionType → Except FlowError (List Connection)
  get_default : ConnectionType → Bool → Except FlowError Connection
  get : String → Bool → Except FlowError Connection
  complete : ChatClient → String → Except FlowError ChatResponse

/-- The fixed audience of `get_bearer_token_provider` (line 99). -/
def cognitiveServicesScope : String := "https://cognitiveservices.azure.com/.default"

/-- The fixed `api_version` of both `AsyncAzureOpenAI` constructions (lines 89, 102). -/
def apiVersion : String := "2024-06-01"

/-- The one prompt sent (lines 112, 143). -/
def samplePrompt : String := "How many feet are in a mile?"

/-- Lines 79-140: the dispatch on `connection.connection_type` and then
`connection.authentication_type`.  Returns the constructed client (`none` when
the connection type is not handled: the `if`/`elif` chain has no final `else`),
and emits the `print` and `get_bearer_token_provider` effects of each branch. -/
def clientFactory (connection : Connection) : Step (Option ChatClient) :=
  match connection.connection_type with
  | .AZURE_OPEN_AI =>
    match connection.authentication_type with
    | .API_KEY =>
      let client := ChatClient.asyncAzureOpenAI (.staticKey connection.key)
        connection.endpoint_url apiVersion
      ⟨[.printed "====> Creating AzureOpenAI client using API key authentication",
        .clientConstructed client], .ok (some client)⟩
    | .ENTRA_ID =>
      let client := ChatClient.asyncAzureOpenAI
        (.bearerTokenProvider connection.token_credential cognitiveServicesScope)
        connection.endpoint_url apiVersion
      ⟨[.printed "====> Creating AzureOpenAI client using Entra ID authentication",
        .getBearerTokenProvider connection.token_credential cognitiveServicesScope,
        .clientConstructed client], .ok (some client)⟩
    | a => ⟨[], .error (.unsupportedAuth a)⟩
  | .AZURE_AI_SERVICES =>
    match connection.authentication_type with
    | .API_KEY =>
      let client := ChatClient.chatCompletionsClient connection.endpoint_url
        (.azureKeyCredential (connection.key.getD ""))
      ⟨[.printed "====> Creating ChatCompletionsClient using API key authentication",
        .clientConstructed client], .ok (some client)⟩
    | .ENTRA_ID =>
      let client := ChatClient.chatCompletionsClient connection.endpoint_url
        (.asyncTokenCredential connection.token_credential)
      ⟨[.printed "====> Creating ChatCompletionsClient using Entra ID authentication",
        .clientConstructed client], .ok (some client)⟩
    | a => ⟨[], .error (.unsupportedAuth a)⟩
  | _ => ⟨[], .ok none⟩

/-- Line 58 of the sample: the header of the filtered listing.  The source
string lacks the `f` prefix, so the `{len(connections)}` placeholder is part
of the printed text, not an interpolation. -/
def aoaiListingHeader : String :=
  "====> Listing of all Azure Open AI connections (found {len(connections)}):"

/-- Lines 107-117 / 142-146: issue the completion request; on success, close
the client and print the first choice's content (`choices[0]` raises
`IndexError` on an empty list, after the close). -/
def completionPhase (svc : Service) (client : ChatClient)
    (model_deployment_name : String) : Step Unit :=
  Step.bind ⟨[.completionRequest client model_deployment_name samplePrompt],
      svc.complete client model_deployment_name⟩ (fun response =>
    Step.bind ⟨[.clientClose client], .ok ()⟩ (fun _ =>
      match response.choices with
      | [] => ⟨[], .error .indexError⟩
      | choice :: _ => ⟨[.printed choice.message.content], .ok ()⟩))

/-- Lines 49-76: the body of the `async with` block — two listings, the
get-default call, then the get-by-name call whose result is returned. -/
def resolverPhase (svc : Service) (connection_name : String) : Step Connection :=
  Step.bind (networkStep "connections.list" (svc.list none)) (fun connections =>
  Step.bind (tellP ("====> Listing of all connections (found " ++
      toString connections.length ++ "):")) (fun _ =>
  Step.bind (printConnections connections) (fun _ =>
  Step.bind (networkStep "connections.list"
      (svc.list (some .AZURE_OPEN_AI))) (fun connections =>
  Step.bind (tellP aoaiListingHeader)
      (fun _ =>
  Step.bind (printConnections connections) (fun _ =>
  Step.bind (networkStep "connections.get_default"
      (svc.get_default .AZURE_AI_SERVICES true)) (fun connection =>
  Step.bind (tellP "====> Get default Azure AI Services connection:") (fun _ =>
  Step.bind (tellConn connection) (fun _ =>
  Step.bind (networkStep "connections.get"
      (svc.get connection_name true)) (fun connection =>
  Step.bind (tellP "====> Get connection by name:") (fun _ =>
  Step.bind (tellConn connection) (fun _ =>
  ⟨[], .ok connection⟩))))))))))))

/-- The whole of `sample_connections_async`: the three environment reads, the
scoped session around the resolver phase, the factory dispatch on the
connection fetched by name, and — when a client was constructed — the
completion call. -/
def sample_connections_async (env : Env) (svc : Service) : Step Unit :=
  Step.bind (readEnv "PROJECT_CONNECTION_STRING" env.PROJECT_CONNECTION_STRING)
      (fun _ =>
  Step.bind (readEnv "CONNECTION_NAME" env.CONNECTION_NAME) (fun connection_name =>
  Step.bind (readEnv "MODEL_DEPLOYMENT_NAME" env.MODEL_DEPLOYMENT_NAME)
      (fun model_deployment_name =>
  Step.bind (withSession (resolverPhase svc connection_name)) (fun connection =>
  Step.bind (clientFactory connection) (fun client? =>
  match client? with
  | none => ⟨[], .ok ()⟩
  | some client => completionPhase svc client model_deployment_name)))))

/-- The event trace of one run. -/
def runEvents (env : Env) (svc : Service) : List Event :=
  (sample_connections_async env svc).events

/-- The outcome of one run. -/
def runResult (env : Env) (svc : Service) : Except FlowError Unit :=
  (sample_connections_async env svc).result

/-- The clients constructed in a trace, in order. -/
def constructedClients (events : List Event) : List ChatClient :=
  events.filterMap (fun e =>
    match e with
    | .clientConstructed c => some c
    | _ => none)

/-- The `get_bearer_token_provider` invocations in a trace: the credential
wrapped and the audience used. -/
def bearerWraps (events : List Event) : List (Option Nat × String) :=
  events.filterMap (fun e =>
    match e with
    | .getBearerTokenProvider cred scope => some (cred, scope)
    | _ => none)

/-! Concrete records used by witnesses and counterexamples. -/

/-- An AzureOpenAI / ApiKey connection with a key present. -/
def connAOAIKey : Connection :=
  ⟨"aoai-key", .AZURE_OPEN_AI, .API_KEY, "https://aoai.example", some "secret-key", none⟩

/-- An AzureOpenAI / ApiKey connection whose `key` is absent. -/
def connAOAINoKey : Connection :=
  ⟨"aoai-nokey", .AZURE_OPEN_AI, .API_KEY, "https://aoai.example", none, none⟩

/-- An AzureOpenAI / EntraId connection. -/
def connAOAIEntra : Connection :=
  ⟨"aoai-entra", .AZURE_OPEN_AI, .ENTRA_ID, "https://aoai.example", none, some 7⟩

/-- An AzureOpenAI connection with SAS authentication. -/
def connSAS : Connection :=
  ⟨"aoai-sas", .AZURE_OPEN_AI, .SAS, "https://aoai.example", none, none⟩

/-- An AzureAIServices / ApiKey connection whose `key` is absent. -/
def connAISKeyless : Connection :=
  ⟨"ais-nokey", .AZURE_AI_SERVICES, .API_KEY, "https://ais.example", none, none⟩

/-- An AzureAIServices / EntraId connection. -/
def connAISEntra : Connection :=
  ⟨"ais-entra", .AZURE_AI_SERVICES, .ENTRA_ID, "https://ais.example", none, some 3⟩

/-- A Serverless connection: neither branch of the dispatch handles it. -/
def connServerless : Connection :=
  ⟨"maas", .SERVERLESS, .API_KEY, "https://maas.example", some "k", none⟩

/-- C1 counterexample: with `connection_type = AzureOpenAI`,
`authentication_type = ApiKey` and `key` absent, the factory still constructs
the OpenAI client (with `api_key = None` passed through) — it does not require
the key to be present. -/
theorem c1_key_not_required :
    connAOAINoKey.key = none ∧
      (clientFactory connAOAINoKey).result =
        .ok (some (ChatClient.asyncAzureOpenAI (.staticKey none)
          "https://aoai.example" apiVersion)) :=
  ⟨rfl, rfl⟩

/-- C1 (amended): for AzureOpenAI / ApiKey connections the factory constructs
the OpenAI-compatible client with the connection's static key passed through
as stored (present or not), and never calls `get_bearer_token_provider`. -/
theorem c1_static_key_no_bearer (c : Connection)
    (h1 : c.connection_type = .AZURE_OPEN_AI)
    (h2 : c.authentication_type = .API_KEY) :
    (clientFactory c).result =
      .ok (some (ChatClient.asyncAzureOpenAI (.staticKey c.key)
        c.endpoint_url apiVersion)) ∧
    bearerWraps (clientFactory c).events = [] := by
  obtain ⟨n, ct, au, ep, k, tc⟩ := c
  simp only at h1 h2
  subst h1 h2
  simp [clientFactory, bearerWraps]

/-- C1 witness. -/
theorem c1_static_key_no_bearer_witness :
    (clientFactory connAOAIKey).result =
      .ok (some (ChatClient.asyncAzureOpenAI (.staticKey connAOAIKey.key)
        connAOAIKey.endpoint_url apiVersion)) ∧
    bearerWraps (clientFactory connAOAIKey).events = [] :=
  c1_static_key_no_bearer connAOAIKey rfl rfl

/-- C2: for AzureOpenAI / EntraId connections the factory calls
`get_bearer_token_provider` exactly once, on the connection's token credential
with audience `"https://cognitiveservices.azure.com/.default"`, and constructs
the OpenAI-compatible client with that provider. -/
theorem c2_bearer_wrap_once (c : Connection)
    (h1 : c.connection_type = .AZURE_OPEN_AI)
    (h2 : c.authentication_type = .ENTRA_ID) :
    bearerWraps (clientFactory c).events =
      [(c.token_credential, cognitiveServicesScope)] ∧
    (clientFactory c).result =
      .ok (some (ChatClient.asyncAzureOpenAI
        (.bearerTokenProvider c.token_credential cognitiveServicesScope)
        c.endpoint_url apiVersion)) := by
  obtain ⟨n, ct, au, ep, k, tc⟩ := c
  simp only at h1 h2
  subst h1 h2
  simp [clientFactory, bearerWraps]

/-- C2 witness. -/
theorem c2_bearer_wrap_once_witness :
    bearerWraps (clientFactory connAOAIEntra).events =
      [(connAOAIEntra.token_credential, cognitiveServicesScope)] ∧
    (clientFactory connAOAIEntra).result =
      .ok (some (ChatClient.asyncAzureOpenAI
        (.bearerTokenProvider connAOAIEntra.token_credential cognitiveServicesScope)
        connAOAIEntra.endpoint_url apiVersion)) :=
  c2_bearer_wrap_once connAOAIEntra rfl rfl

/-- C3: for a handled connection type (AzureOpenAI or AzureAIServices) with an
authentication type that is neither ApiKey nor EntraId, the factory fails with
the unsupported-authentication error carrying the offending type, and no
client of either variant is constructed. -/
theorem c3_unsupported_auth (c : Connection)
    (h1 : c.connection_type = .AZURE_OPEN_AI ∨
      c.connection_type = .AZURE_AI_SERVICES)
    (h2 : c.authentication_type ≠ .API_KEY)
    (h3 : c.authentication_type ≠ .ENTRA_ID) :
    (clientFactory c).result = .error (.unsupportedAuth c.authentication_type) ∧
    constructedClients (clientFactory c).events = [] := by
  obtain ⟨n, ct, au, ep, k, tc⟩ := c
  simp only at h1 h2 h3
  rcases h1 with h1 | h1 <;> subst h1 <;> cases au <;>
    simp_all [clientFactory, constructedClients]

/-- C3 witness. -/
theorem c3_unsupported_auth_witness :
    (clientFactory connSAS).result =
      .error (.unsupportedAuth connSAS.authentication_type) ∧
    constructedClients (clientFactory connSAS).events = [] :=
  c3_unsupported_auth connSAS (Or.inl rfl) (by decide) (by decide)

/-- C4: an AzureAIServices / ApiKey connection with `key` absent constructs
the Inference-service client with the empty-string key — tolerated, not an
error. -/
theorem c4_missing_key_tolerated (c : Connection)
    (h1 : c.connection_type = .AZURE_AI_SERVICES)
    (h2 : c.authentication_type = .API_KEY)
    (h3 : c.key = none) :
    (clientFactory c).result =
      .ok (some (ChatClient.chatCompletionsClient c.endpoint_url
        (.azureKeyCredential ""))) := by
  obtain ⟨n, ct, au, ep, k, tc⟩ := c
  simp only at h1 h2 h3
  subst h1 h2 h3
  simp [clientFactory]

/-- C4 witness. -/
theorem c4_missing_key_tolerated_witness :
    (clientFactory connAISKeyless).result =
      .ok (some (ChatClient.chatCompletionsClient connAISKeyless.endpoint_url
        (.azureKeyCredential ""))) :=
  c4_missing_key_tolerated connAISKeyless rfl rfl rfl

/-- C5: an AzureAIServices / EntraId connection constructs the
Inference-service client with the raw token-credential handle, with no
`get_bearer_token_provider` indirection. -/
theorem c5_raw_credential_no_bearer (c : Connection)
    (h1 : c.connection_type = .AZURE_AI_SERVICES)
    (h2 : c.authentication_type = .ENTRA_ID) :
    (clientFactory c).result =
      .ok (some (ChatClient.chatCompletionsClient c.endpoint_url
        (.asyncTokenCredential c.token_credential))) ∧
    bearerWraps (clientFactory c).events = [] := by
  obtain ⟨n, ct, au, ep, k, tc⟩ := c
  simp only at h1 h2
  subst h1 h2
  simp [clientFactory, bearerWraps]

/-- C5 witness. -/
theorem c5_raw_credential_no_bearer_witness :
    (clientFactory connAISEntra).result =
      .ok (some (ChatClient.chatCompletionsClient connAISEntra.endpoint_url
        (.asyncTokenCredential connAISEntra.token_credential))) ∧
    bearerWraps (clientFactory connAISEntra).events = [] :=
  c5_raw_credential_no_bearer connAISEntra rfl rfl

/-- C8 counterexample: a resolved Serverless connection reaches the dispatch
and constructs no client at all — "exactly one variant per resolved
Connection" fails. -/
theorem c8_serverless_no_client :
    (clientFactory connServerless).result = .ok none ∧
      constructedClients (clientFactory connServerless).events = [] :=
  ⟨rfl, rfl⟩

/-- C8 (amended): the factory constructs at most one client; it constructs
exactly one iff the connection type is AzureOpenAI or AzureAIServices and the
authentication type is ApiKey or EntraId; and every constructed client's
variant is fixed by the connection type (AzureOpenAI gives the
OpenAI-compatible variant, AzureAIServices the Inference-service variant). -/
theorem c8_at_most_one_client (c : Connection) :
    (constructedClients (clientFactory c).events).length ≤ 1 ∧
    (((c.connection_type = .AZURE_OPEN_AI ∨
        c.connection_type = .AZURE_AI_SERVICES) ∧
      (c.authentication_type = .API_KEY ∨
        c.authentication_type = .ENTRA_ID)) ↔
      (constructedClients (clientFactory c).events).length = 1) ∧
    (∀ client ∈ constructedClients (clientFactory c).events,
      (c.connection_type = .AZURE_OPEN_AI →
        ∃ cr ep v, client = ChatClient.asyncAzureOpenAI cr ep v) ∧
      (c.connection_type = .AZURE_AI_SERVICES →
        ∃ ep cr, client = ChatClient.chatCompletionsClient ep cr)) := by
  obtain ⟨n, ct, au, ep, k, tc⟩ := c
  cases ct <;> cases au <;>
    simp [clientFactory, constructedClients]

/-- C8 witness. -/
theorem c8_at_most_one_client_witness :
    (constructedClients (clientFactory connAOAIKey).events).length ≤ 1 :=
  (c8_at_most_one_client connAOAIKey).1

/-! Transport lemmas for `Step.bind` and the phase-level inventories of
events, used by the whole-flow theorems. -/

theorem Step.bind_ok_inv {α β : Type} {s : Step α} {f : α → Step β} {b : β}
    (h : (Step.bind s f).result = .ok b) :
    ∃ a, s.result = .ok a ∧ (f a).result = .ok b ∧
      (Step.bind s f).events = s.events ++ (f a).events := by
  cases hr : s.result with
  | error e => simp [Step.bind, hr] at h
  | ok a => exact ⟨a, rfl, by simpa [Step.bind, hr] using h, by simp [Step.bind, hr]⟩

theorem Step.mem_bind_left {α β : Type} {s : Step α} {f : α → Step β} {e : Event}
    (h : e ∈ s.events) : e ∈ (Step.bind s f).events := by
  unfold Step.bind
  cases s.result <;> simp [h]

theorem Step.mem_bind_right {α β : Type} {s : Step α} {f : α → Step β} {e : Event}
    {a : α} (hr : s.result = .ok a) (h : e ∈ (f a).events) :
    e ∈ (Step.bind s f).events := by
  simp [Step.bind, hr, h]

theorem mem_withSession {α : Type} {body : Step α} {e : Event}
    (h : e ∈ body.events) : e ∈ (withSession body).events := by
  simp [withSession, h]

theorem readEnv_events (name : String) (v : Option String) :
    (readEnv name v).events = [Event.envRead name] := rfl

theorem withSession_events {α : Type} (body : Step α) :
    (withSession body).events =
      Event.sessionOpen :: (body.events ++ [Event.sessionClose]) := rfl

/-- Events of the resolver phase are observational only: environment reads,
network round trips and prints — no session, client or bearer events. -/
def passiveEvent (e : Event) : Prop :=
  match e with
  | .envRead _ => True
  | .networkCall _ => True
  | .printed _ => True
  | .printedConn _ => True
  | _ => False

theorem passive_bind {α β : Type} {s : Step α} {f : α → Step β}
    (hs : ∀ e ∈ s.events, passiveEvent e)
    (hf : ∀ a, ∀ e ∈ (f a).events, passiveEvent e) :
    ∀ e ∈ (Step.bind s f).events, passiveEvent e := by
  intro e he
  unfold Step.bind at he
  cases hr : s.result with
  | error er =>
    rw [hr] at he
    exact hs e he
  | ok a =>
    rw [hr] at he
    simp only [List.mem_append] at he
    rcases he with he | he
    · exact hs e he
    · exact hf a e he

theorem networkStep_passive {α : Type} (op : String) (r : Except FlowError α) :
    ∀ e ∈ (networkStep op r).events, passiveEvent e := by
  intro e he
  simp [networkStep] at he
  subst he
  trivial

theorem tellP_passive (line : String) :
    ∀ e ∈ (tellP line).events, passiveEvent e := by
  intro e he
  simp [tellP] at he
  subst he
  trivial

theorem tellConn_passive (c : Connection) :
    ∀ e ∈ (tellConn c).events, passiveEvent e := by
  intro e he
  simp [tellConn] at he
  subst he
  trivial

theorem printConnections_passive (cs : List Connection) :
    ∀ e ∈ (printConnections cs).events, passiveEvent e := by
  intro e he
  simp [printConnections, List.mem_map] at he
  obtain ⟨c, -, hc⟩ := he
  subst hc
  trivial

theorem resolverPhase_passive (svc : Service) (n : String) :
    ∀ e ∈ (resolverPhase svc n).events, passiveEvent e := by
  unfold resolverPhase
  refine passive_bind (networkStep_passive _ _) (fun connections => ?_)
  refine passive_bind (tellP_passive _) (fun _ => ?_)
  refine passive_bind (printConnections_passive _) (fun _ => ?_)
  refine passive_bind (networkStep_passive _ _) (fun connections => ?_)
  refine passive_bind (tellP_passive _) (fun _ => ?_)
  refine passive_bind (printConnections_passive _) (fun _ => ?_)
  refine passive_bind (networkStep_passive _ _) (fun connection => ?_)
  refine passive_bind (tellP_passive _) (fun _ => ?_)
  refine passive_bind (tellConn_passive _) (fun _ => ?_)
  refine passive_bind (networkStep_passive _ _) (fun connection => ?_)
  refine passive_bind (tellP_passive _) (fun _ => ?_)
  refine passive_bind (tellConn_passive _) (fun _ => ?_)
  intro e he
  simp at he

/-- A client-constructed event pins down the factory's outcome: the factory
returned exactly that client. -/
theorem clientFactory_constructed_inv (c : Connection) (client : ChatClient)
    (h : Event.clientConstructed client ∈ (clientFactory c).events) :
    (clientFactory c).result = .ok (some client) := by
  obtain ⟨n, ct, au, ep, k, tc⟩ := c
  cases ct <;> cases au <;> simp_all [clientFactory]

/-- No client-constructed event arises in the completion phase. -/
theorem completionPhase_no_construction (svc : Service) (client : ChatClient)
    (m : String) :
    constructedClients (completionPhase svc client m).events = [] := by
  unfold completionPhase
  cases hr : svc.complete client m with
  | error e => simp [Step.bind, hr, constructedClients]
  | ok response =>
    cases hc : response.choices <;>
      simp [Step.bind, hr, hc, constructedClients]

/-- If the completion phase finished successfully, the client was closed. -/
theorem completionPhase_ok_close (svc : Service) (client : ChatClient)
    (m : String) (h : (completionPhase svc client m).result = .ok ()) :
    Event.clientClose client ∈ (completionPhase svc client m).events := by
  unfold completionPhase at h ⊢
  cases hr : svc.complete client m with
  | error e => simp [Step.bind, hr] at h
  | ok response =>
    cases hc : response.choices <;> simp [Step.bind, hr, hc]

theorem constructedClients_append (l l' : List Event) :
    constructedClients (l ++ l') = constructedClients l ++ constructedClients l' := by
  simp [constructedClients]

theorem constructedClients_of_passive (l : List Event)
    (h : ∀ e ∈ l, passiveEvent e) : constructedClients l = [] := by
  induction l with
  | nil => rfl
  | cons e rest ih =>
    have he := h e (by simp)
    have hrest := ih (fun x hx => h x (by simp [hx]))
    cases e <;> simp_all [constructedClients, passiveEvent]

theorem mem_constructedClients {c : ChatClient} {es : List Event}
    (h : Event.clientConstructed c ∈ es) : c ∈ constructedClients es := by
  simp only [constructedClients, List.mem_filterMap]
  exact ⟨_, h, rfl⟩

theorem constructedClients_nil : constructedClients [] = [] := rfl

theorem constructedClients_cons (e : Event) (l : List Event) :
    constructedClients (e :: l) =
      (match e with
        | Event.clientConstructed c => [c]
        | _ => []) ++ constructedClients l := by
  cases e <;> simp [constructedClients]

theorem constructedClients_printedConn (cs : List Connection) :
    constructedClients (cs.map Event.printedConn) = [] := by
  induction cs with
  | nil => rfl
  | cons c rest ih => simp [constructedClients]

/-! Concrete environments and service oracles for witnesses and
counterexamples. -/

/-- All three required environment variables set. -/
def envAll : Env := ⟨some "proj-cs", some "aoai-key", some "gpt"⟩

/-- `MODEL_DEPLOYMENT_NAME` missing. -/
def envNoModel : Env := ⟨some "proj-cs", some "aoai-key", none⟩

/-- A service whose completion endpoint fails. -/
def svcComplFail : Service :=
  ⟨fun _ => .ok [], fun _ _ => .ok connAISEntra, fun _ _ => .ok connAOAIKey,
   fun _ _ => .error (.remoteError "completion failed")⟩

/-- A service with no connections configured. -/
def svcEmpty : Service :=
  ⟨fun _ => .ok [], fun _ _ => .error (.resourceNotFound "no default"),
   fun _ _ => .error (.resourceNotFound "no connection"),
   fun _ _ => .error (.remoteError "unreachable")⟩

/-- A healthy service: get-by-name resolves to an AzureOpenAI / EntraId
connection, get-default to an AzureAIServices one, and completions succeed. -/
def svcHealthy : Service :=
  ⟨fun _ => .ok [connAOAIKey], fun _ _ => .ok connAISEntra,
   fun _ _ => .ok connAOAIEntra, fun _ _ => .ok ⟨[⟨⟨"5280"⟩⟩]⟩⟩

/-- The client the factory builds from `connAOAIKey`. -/
def aoaiKeyClient : ChatClient :=
  .asyncAzureOpenAI (.staticKey (some "secret-key")) "https://aoai.example" apiVersion

/-- C6 counterexample: a run where the completion call fails leaves the
constructed chat client unclosed — its `close()` only runs after a successful
completion, so release is not guaranteed on every exit path. -/
theorem c6_client_leak_on_failure :
    Event.clientConstructed aoaiKeyClient ∈ runEvents envAll svcComplFail ∧
      Event.clientClose aoaiKeyClient ∉ runEvents envAll svcComplFail := by
  constructor <;> decide

/-- C6 (amended): the project session is released on every exit path (scoped
acquisition), but a constructed chat client is guaranteed closed only on the
successful path: whenever the run finishes without error, every constructed
client was closed. -/
theorem c6_session_scoped_client_on_success (env : Env) (svc : Service) :
    (Event.sessionOpen ∈ runEvents env svc →
      Event.sessionClose ∈ runEvents env svc) ∧
    (runResult env svc = .ok () →
      ∀ client, Event.clientConstructed client ∈ runEvents env svc →
        Event.clientClose client ∈ runEvents env svc) := by
  constructor
  · intro hopen
    cases hP : env.PROJECT_CONNECTION_STRING with
    | none =>
      simp [runEvents, sample_connections_async, Step.bind, readEnv, hP] at hopen
    | some p =>
    cases hC : env.CONNECTION_NAME with
    | none =>
      simp [runEvents, sample_connections_async, Step.bind, readEnv, hP, hC] at hopen
    | some cn =>
    cases hM : env.MODEL_DEPLOYMENT_NAME with
    | none =>
      simp [runEvents, sample_connections_async, Step.bind, readEnv, hP, hC, hM] at hopen
    | some m =>
    cases hr : (resolverPhase svc cn).result with
    | error e =>
      simp [runEvents, sample_connections_async, Step.bind, readEnv, withSession,
        hP, hC, hM, hr]
    | ok conn =>
      simp [runEvents, sample_connections_async, Step.bind, readEnv, withSession,
        hP, hC, hM, hr]
  · intro hok client hmem
    unfold runResult sample_connections_async at hok
    unfold runEvents sample_connections_async at hmem
    obtain ⟨p, hp1, hok, hev1⟩ := Step.bind_ok_inv hok
    obtain ⟨cn, hc1, hok, hev2⟩ := Step.bind_ok_inv hok
    obtain ⟨m, hm1, hok, hev3⟩ := Step.bind_ok_inv hok
    obtain ⟨conn, hw1, hok, hev4⟩ := Step.bind_ok_inv hok
    obtain ⟨client?, hfac, hok, hev5⟩ := Step.bind_ok_inv hok
    rw [hev1, readEnv_events] at hmem
    rcases List.mem_append.mp hmem with hmem | hmem
    · simp at hmem
    rw [hev2, readEnv_events] at hmem
    rcases List.mem_append.mp hmem with hmem | hmem
    · simp at hmem
    rw [hev3, readEnv_events] at hmem
    rcases List.mem_append.mp hmem with hmem | hmem
    · simp at hmem
    rw [hev4, withSession_events] at hmem
    have hpassive : Event.clientConstructed client ∉ (resolverPhase svc cn).events := by
      intro hx
      exact resolverPhase_passive svc cn _ hx
    rcases List.mem_append.mp hmem with hmem | hmem
    · rcases List.mem_cons.mp hmem with hmem | hmem
      · exact absurd hmem (by simp)
      rcases List.mem_append.mp hmem with hmem | hmem
      · exact absurd hmem hpassive
      · exact absurd hmem (by simp)
    rw [hev5] at hmem
    rcases List.mem_append.mp hmem with hmem | hmem
    · have hfc := clientFactory_constructed_inv conn client hmem
      rw [hfac] at hfc
      have hcq : client? = some client := by
        injection hfc
      subst hcq
      have hclose := completionPhase_ok_close svc client m hok
      unfold runEvents sample_connections_async
      exact Step.mem_bind_right hp1 (Step.mem_bind_right hc1 (Step.mem_bind_right hm1
        (Step.mem_bind_right hw1 (Step.mem_bind_right hfac hclose))))
    · cases client? with
      | none => simp at hmem
      | some cl =>
        have := mem_constructedClients hmem
        rw [completionPhase_no_construction svc cl m] at this
        simp at this

/-- C6 witness. -/
theorem c6_session_scoped_client_on_success_witness :
    Event.sessionClose ∈ runEvents envAll svcComplFail :=
  (c6_session_scoped_client_on_success envAll svcComplFail).1 (by decide)

/-- C7: a missing environment variable aborts the run with the fatal
configuration error before any network call or session open, and when all
three variables are set, the first four events of every run are exactly the
three environment reads followed by the session open. -/
theorem c7_env_before_network (env : Env) (svc : Service) :
    ((env.PROJECT_CONNECTION_STRING = none ∨ env.CONNECTION_NAME = none ∨
        env.MODEL_DEPLOYMENT_NAME = none) →
      (∃ n, runResult env svc = .error (.missingEnv n)) ∧
      (∀ op, Event.networkCall op ∉ runEvents env svc) ∧
      Event.sessionOpen ∉ runEvents env svc) ∧
    (env.PROJECT_CONNECTION_STRING ≠ none → env.CONNECTION_NAME ≠ none →
      env.MODEL_DEPLOYMENT_NAME ≠ none →
      (runEvents env svc).take 4 =
        [Event.envRead "PROJECT_CONNECTION_STRING",
         Event.envRead "CONNECTION_NAME",
         Event.envRead "MODEL_DEPLOYMENT_NAME",
         Event.sessionOpen]) := by
  constructor
  · intro h
    cases hP : env.PROJECT_CONNECTION_STRING with
    | none =>
      exact ⟨⟨"PROJECT_CONNECTION_STRING",
        by simp [runResult, sample_connections_async, Step.bind, readEnv, hP]⟩,
        fun op => by simp [runEvents, sample_connections_async, Step.bind, readEnv, hP],
        by simp [runEvents, sample_connections_async, Step.bind, readEnv, hP]⟩
    | some p =>
    cases hC : env.CONNECTION_NAME with
    | none =>
      exact ⟨⟨"CONNECTION_NAME",
        by simp [runResult, sample_connections_async, Step.bind, readEnv, hP, hC]⟩,
        fun op => by simp [runEvents, sample_connections_async, Step.bind, readEnv, hP, hC],
        by simp [runEvents, sample_connections_async, Step.bind, readEnv, hP, hC]⟩
    | some cn =>
    cases hM : env.MODEL_DEPLOYMENT_NAME with
    | none =>
      exact ⟨⟨"MODEL_DEPLOYMENT_NAME",
        by simp [runResult, sample_connections_async, Step.bind, readEnv, hP, hC, hM]⟩,
        fun op => by simp [runEvents, sample_connections_async, Step.bind, readEnv, hP, hC, hM],
        by simp [runEvents, sample_connections_async, Step.bind, readEnv, hP, hC, hM]⟩
    | some m =>
      rw [hP, hC, hM] at h
      simp at h
  · intro hP hC hM
    obtain ⟨p, hP⟩ := Option.ne_none_iff_exists.mp hP
    obtain ⟨cn, hC⟩ := Option.ne_none_iff_exists.mp hC
    obtain ⟨m, hM⟩ := Option.ne_none_iff_exists.mp hM
    cases hr : (resolverPhase svc cn).result with
    | error e =>
      simp [runEvents, sample_connections_async, Step.bind, readEnv, withSession,
        hP.symm, hC.symm, hM.symm, hr]
    | ok conn =>
      simp [runEvents, sample_connections_async, Step.bind, readEnv, withSession,
        hP.symm, hC.symm, hM.symm, hr]

/-- C7 witness. -/
theorem c7_env_before_network_witness :
    (∃ n, runResult envNoModel svcEmpty = .error (.missingEnv n)) ∧
    (∀ op, Event.networkCall op ∉ runEvents envNoModel svcEmpty) ∧
    Event.sessionOpen ∉ runEvents envNoModel svcEmpty :=
  (c7_env_before_network envNoModel svcEmpty).1 (Or.inr (Or.inr rfl))

/-- C9: the clients constructed in a run are exactly the clients the factory
builds from the connection fetched by name (`connections.get` with the
configured name and `include_credentials=True`); the earlier get-default
result `cdef` does not occur on the right-hand side — it is never used to
construct a client. -/
theorem c9_dispatch_on_get_by_name (env : Env) (svc : Service)
    (p cn m : String) (l1 l2 : List Connection) (cdef cbyname : Connection)
    (hP : env.PROJECT_CONNECTION_STRING = some p)
    (hC : env.CONNECTION_NAME = some cn)
    (hM : env.MODEL_DEPLOYMENT_NAME = some m)
    (h1 : svc.list none = .ok l1)
    (h2 : svc.list (some .AZURE_OPEN_AI) = .ok l2)
    (h3 : svc.get_default .AZURE_AI_SERVICES true = .ok cdef)
    (h4 : svc.get cn true = .ok cbyname) :
    constructedClients (runEvents env svc) =
      constructedClients (clientFactory cbyname).events := by
  cases hfac : (clientFactory cbyname).result with
  | error e =>
    simp [runEvents, sample_connections_async, resolverPhase, Step.bind, readEnv,
      withSession, networkStep, tellP, tellConn, printConnections,
      hP, hC, hM, h1, h2, h3, h4, hfac, constructedClients_append,
      constructedClients_cons, constructedClients_nil, constructedClients_printedConn]
  | ok client? =>
    cases client? with
    | none =>
      simp [runEvents, sample_connections_async, resolverPhase, Step.bind, readEnv,
        withSession, networkStep, tellP, tellConn, printConnections,
        hP, hC, hM, h1, h2, h3, h4, hfac, constructedClients_append,
        constructedClients_cons, constructedClients_nil, constructedClients_printedConn]
    | some client =>
      simp [runEvents, sample_connections_async, resolverPhase, Step.bind, readEnv,
        withSession, networkStep, tellP, tellConn, printConnections,
        hP, hC, hM, h1, h2, h3, h4, hfac, constructedClients_append,
        constructedClients_cons, constructedClients_nil, constructedClients_printedConn,
        completionPhase_no_construction]

/-- C9 witness. -/
theorem c9_dispatch_on_get_by_name_witness :
    constructedClients (runEvents envAll svcHealthy) =
      constructedClients (clientFactory connAOAIEntra).events :=
  c9_dispatch_on_get_by_name envAll svcHealthy "proj-cs" "aoai-key" "gpt"
    [connAOAIKey] [connAOAIKey] connAISEntra connAOAIEntra
    rfl rfl rfl rfl rfl rfl rfl

/-- C10: the first listing's header interpolates the connection count, while
the header printed before the Azure OpenAI listing is a fixed literal that
contains the placeholder text `{len(connections)}` instead of the count, for
every result of the filtered list call. -/
theorem c10_header_placeholder (env : Env) (svc : Service)
    (p cn m : String) (l1 l2 : List Connection)
    (hP : env.PROJECT_CONNECTION_STRING = some p)
    (hC : env.CONNECTION_NAME = some cn)
    (hM : env.MODEL_DEPLOYMENT_NAME = some m)
    (h1 : svc.list none = .ok l1)
    (h2 : svc.list (some .AZURE_OPEN_AI) = .ok l2) :
    Event.printed ("====> Listing of all connections (found " ++
        toString l1.length ++ "):") ∈ runEvents env svc ∧
    Event.printed aoaiListingHeader ∈ runEvents env svc ∧
    aoaiListingHeader =
      "====> Listing of all Azure Open AI connections (found " ++
        "{len(connections)}" ++ "):" := by
  have hrP : (readEnv "PROJECT_CONNECTION_STRING" env.PROJECT_CONNECTION_STRING).result
      = .ok p := by simp [readEnv, hP]
  have hrC : (readEnv "CONNECTION_NAME" env.CONNECTION_NAME).result = .ok cn := by
    simp [readEnv, hC]
  have hrM : (readEnv "MODEL_DEPLOYMENT_NAME" env.MODEL_DEPLOYMENT_NAME).result
      = .ok m := by simp [readEnv, hM]
  have hn1 : (networkStep "connections.list" (svc.list none)).result = .ok l1 := by
    simp [networkStep, h1]
  have hn2 : (networkStep "connections.list"
      (svc.list (some .AZURE_OPEN_AI))).result = .ok l2 := by
    simp [networkStep, h2]
  refine ⟨?_, ?_, by decide⟩
  · show Event.printed _ ∈ (sample_connections_async env svc).events
    unfold sample_connections_async
    refine Step.mem_bind_right hrP ?_
    refine Step.mem_bind_right hrC ?_
    refine Step.mem_bind_right hrM ?_
    refine Step.mem_bind_left (mem_withSession ?_)
    unfold resolverPhase
    refine Step.mem_bind_right hn1 ?_
    exact Step.mem_bind_left (by simp [tellP])
  · show Event.printed _ ∈ (sample_connections_async env svc).events
    unfold sample_connections_async
    refine Step.mem_bind_right hrP ?_
    refine Step.mem_bind_right hrC ?_
    refine Step.mem_bind_right hrM ?_
    refine Step.mem_bind_left (mem_withSession ?_)
    unfold resolverPhase
    refine Step.mem_bind_right hn1 ?_
    refine Step.mem_bind_right rfl ?_
    refine Step.mem_bind_right rfl ?_
    refine Step.mem_bind_right hn2 ?_
    exact Step.mem_bind_left (by simp [tellP])

/-- C10 witness. -/
theorem c10_header_placeholder_witness :
    Event.printed ("====> Listing of all connections (found " ++
        toString ([connAOAIKey] : List Connection).length ++ "):")
      ∈ runEvents envAll svcHealthy ∧
    Event.printed aoaiListingHeader ∈ runEvents envAll svcHealthy ∧
    aoaiListingHeader =
      "====> Listing of all Azure Open AI connections (found " ++
        "{len(connections)}" ++ "):" :=
  c10_header_placeholder envAll svcHealthy "proj-cs" "aoai-key" "gpt"
    [connAOAIKey] [connAOAIKey] rfl rfl rfl rfl rfl

end SampleConnections
